import Mathlib

/-!
Shallow embedding of the wall_library validator dispatch and on-fail
resolution engine, together with theorems checking the natural-language
specification of the library against the code.

Source files embedded here:
  src/wall_library/classes/validation/validation_result.py
  src/wall_library/validator_base.py
  src/wall_library/validator_service/sequential_validator_service.py
  src/wall_library/validator_service/async_validator_service.py
  src/wall_library/classes/validation/validator_reference.py
  src/wall_library/classes/schema/processed_schema.py
  src/wall_library/schema/rail_schema.py
  src/wall_library/utils/regex_utils.py
  src/wall_library/guard.py
  src/wall_library/run/runner.py
  src/wall_library/actions/reask.py
  src/examples/test_basic_example.py (the LengthValidator used by the
  scenarios of the spec)

Python values are modelled by the inductive type Value (None, strings and
integers are the only shapes the embedded code paths touch); Python dicts
by ordered association lists; a Python function that may raise is modelled
with Except.
-/

namespace Wall

/-- Value models the Python values flowing through the engine: None,
strings and integers. -/
inductive Value where
  | none
  | str (s : String)
  | int (n : Int)
deriving DecidableEq

/-- Metadata models a Python metadata dict as an ordered association list. -/
def Metadata : Type := List (String × Value)

instance : DecidableEq Metadata := by
  unfold Metadata
  infer_instance

instance : Inhabited Metadata := ⟨[]⟩

/-- Python type name of a value, as produced by type(value).__name__. -/
def Value.type_name : Value → String
  | Value.none => "NoneType"
  | Value.str _ => "str"
  | Value.int _ => "int"

/-- ErrorSpan from classes/validation/validation_result.py. The source
field named end is called stop here because end is a Lean keyword. -/
structure ErrorSpan where
  start : Int
  stop : Int
  message : String
  fix_value : Option Value
deriving DecidableEq

/-- FailResult from classes/validation/validation_result.py: outcome is
the string fail; error_message defaults to the empty string, fix_value to
None and error_spans to the empty list in the source dataclass. -/
structure FailResult where
  error_message : String
  fix_value : Option Value
  error_spans : List ErrorSpan
  metadata : Metadata
deriving DecidableEq

/-- ValidationResult: the sum of PassResult (carrying metadata) and
FailResult, from classes/validation/validation_result.py. -/
inductive ValidationResult where
  | pass (metadata : Metadata)
  | fail (f : FailResult)
deriving DecidableEq

/-- Property is_pass of ValidationResult (outcome == pass). -/
def ValidationResult.is_pass : ValidationResult → Bool
  | ValidationResult.pass _ => true
  | ValidationResult.fail _ => false

/-- Property is_fail of ValidationResult (outcome == fail). -/
def ValidationResult.is_fail : ValidationResult → Bool
  | ValidationResult.pass _ => false
  | ValidationResult.fail _ => true

/-- Modelled from the spec: the module wall_library/types/on_fail.py that
defines OnFailAction is not present under src (only its importers are).
The spec describes OnFailAction as the closed enumeration
Exception | Filter | Refrain | Noop | Fix | Reask | FixReask | Custom,
with string forms exception, filter, refrain, noop, fix, reask, fix_reask. -/
inductive OnFailAction where
  | exception
  | filter
  | refrain
  | noop
  | fix
  | reask
  | fixReask
  | custom
deriving DecidableEq

/-- Modelled from the spec: lookup of an OnFailAction by its string value,
the Python enum call OnFailAction(value); unknown values raise ValueError
in Python, modelled as none. -/
def OnFailAction.from_value : String → Option OnFailAction
  | "exception" => some OnFailAction.exception
  | "filter" => some OnFailAction.filter
  | "refrain" => some OnFailAction.refrain
  | "noop" => some OnFailAction.noop
  | "fix" => some OnFailAction.fix
  | "reask" => some OnFailAction.reask
  | "fix_reask" => some OnFailAction.fixReask
  | "custom" => some OnFailAction.custom
  | _ => Option.none

/-- Modelled from the spec: lookup of an OnFailAction member by its member
name, the Python expression OnFailAction.__members__.get(name). -/
def OnFailAction.from_member_name : String → Option OnFailAction
  | "EXCEPTION" => some OnFailAction.exception
  | "FILTER" => some OnFailAction.filter
  | "REFRAIN" => some OnFailAction.refrain
  | "NOOP" => some OnFailAction.noop
  | "FIX" => some OnFailAction.fix
  | "REASK" => some OnFailAction.reask
  | "FIX_REASK" => some OnFailAction.fixReask
  | "CUSTOM" => some OnFailAction.custom
  | _ => Option.none

/-- ValidationError from errors/validation_error.py: message, error spans
and optional fix value. -/
structure ValidationError where
  message : String
  error_spans : List ErrorSpan
  fix_value : Option Value
deriving DecidableEq

/-- PyError models the Python exceptions raised by the embedded code. -/
inductive PyError where
  | typeError (msg : String)
  | valueError (msg : String)
  | validation (e : ValidationError)
deriving DecidableEq

/-- Validator models an instance of validator_base.Validator after
construction: the identifying rail_alias, the resolved on_fail_descriptor
and on_fail_method, and the two underlying checks. The check functions
model the subclass methods named with a leading underscore in the source
(the sync and async internal validate); a check that raises an exception
is modelled by Except.error carrying str(e). -/
structure Validator where
  rail_alias : String
  on_fail_descriptor : OnFailAction
  on_fail_method : Option (Value → FailResult → Value)
  validate_impl : Value → Metadata → Except String ValidationResult
  async_validate_impl : Value → Metadata → Except String ValidationResult

/-- Argument accepted by the on_fail parameter of Validator.__init__:
None, an OnFailAction, a string, a callable, or anything else. -/
inductive OnFailArg where
  | none
  | action (a : OnFailAction)
  | str (s : String)
  | callable (f : Value → FailResult → Value)
  | other

/-- ASCII uppercase of one character, modelling the Python str.upper used
by Validator.__init__ on on_fail strings. -/
def ascii_upper (c : Char) : Char :=
  if c.toNat ≥ 97 ∧ c.toNat ≤ 122 then Char.ofNat (c.toNat - 32) else c

/-- Uppercase of a string, modelling Python str.upper for ASCII input. -/
def str_upper (s : String) : String :=
  String.mk (s.data.map ascii_upper)

/-- Resolution of the on_fail argument performed by Validator.__init__:
None becomes EXCEPTION; an OnFailAction is kept; a string naming a member
(upper-cased) is looked up; a callable yields CUSTOM with the callable as
on_fail_method; anything else falls back to EXCEPTION. Returns the
resolved descriptor and method. -/
def resolve_on_fail : OnFailArg → OnFailAction × Option (Value → FailResult → Value)
  | OnFailArg.none => (OnFailAction.exception, Option.none)
  | OnFailArg.action a => (a, Option.none)
  | OnFailArg.str s =>
      match OnFailAction.from_member_name (str_upper s) with
      | some a => (a, Option.none)
      | Option.none => (OnFailAction.exception, Option.none)
  | OnFailArg.callable f => (OnFailAction.custom, some f)
  | OnFailArg.other => (OnFailAction.exception, Option.none)

/-- Validator.validate from validator_base.py lines 122-141: metadata
defaults to the empty dict, the internal check runs under try, and an
exception e becomes FailResult(error_message=str(e), metadata=metadata).
The function itself never raises, which its total return type records. -/
def Validator.validate (v : Validator) (value : Value) (metadata : Option Metadata) :
    ValidationResult :=
  let md := metadata.getD []
  match v.validate_impl value md with
  | Except.ok r => r
  | Except.error e =>
      ValidationResult.fail
        { error_message := e, fix_value := Option.none, error_spans := [], metadata := md }

/-- Validator.async_validate from validator_base.py lines 143-164: same
shape as validate but running the async internal check. -/
def Validator.async_validate (v : Validator) (value : Value) (metadata : Option Metadata) :
    ValidationResult :=
  let md := metadata.getD []
  match v.async_validate_impl value md with
  | Except.ok r => r
  | Except.error e =>
      ValidationResult.fail
        { error_message := e, fix_value := Option.none, error_spans := [], metadata := md }

/-- Validator.on_fail_handler from validator_base.py lines 180-201:
EXCEPTION raises ValidationError; FILTER returns None; FIX returns
fail_result.fix_value (None when absent); REFRAIN returns the empty
string; NOOP returns the value; CUSTOM with a method applies it; every
other case, including REASK and FIX_REASK, falls into the final else and
returns the value unchanged. -/
def Validator.on_fail_handler (v : Validator) (value : Value) (fail_result : FailResult) :
    Except ValidationError Value :=
  match v.on_fail_descriptor with
  | OnFailAction.exception =>
      Except.error
        { message := fail_result.error_message,
          error_spans := fail_result.error_spans,
          fix_value := fail_result.fix_value }
  | OnFailAction.filter => Except.ok Value.none
  | OnFailAction.fix => Except.ok (fail_result.fix_value.getD Value.none)
  | OnFailAction.refrain => Except.ok (Value.str (""))
  | OnFailAction.noop => Except.ok value
  | OnFailAction.custom =>
      match v.on_fail_method with
      | some m => Except.ok (m value fail_result)
      | Option.none => Except.ok value
  | _ => Except.ok value

/-- SequentialValidatorService.validate from
validator_service/sequential_validator_service.py: metadata defaults to
the empty dict and the validators run one at a time in binding order,
results accumulated in that order; no short-circuit on failure. -/
def SequentialValidatorService.validate (value : Value) (validators : List Validator)
    (metadata : Option Metadata) : List ValidationResult :=
  let md := metadata.getD []
  validators.map (fun v => v.validate value (some md))

/-- AsyncValidatorService.validate from
validator_service/async_validator_service.py: one async task per
validator, gathered with asyncio.gather, which returns the results in the
order of the task list, that is in binding order. -/
def AsyncValidatorService.validate (value : Value) (validators : List Validator)
    (metadata : Option Metadata) : List ValidationResult :=
  let md := metadata.getD []
  validators.map (fun v => v.async_validate value (some md))

/-- Characters the Python str.strip removes: ASCII whitespace. -/
def is_space_char (c : Char) : Bool :=
  c = ' ' || c = '\t' || c = '\n' || c = '\r'

/-- Python str.strip modelled at the character-list level. -/
def str_strip (s : String) : String :=
  String.mk (((s.data.dropWhile is_space_char).reverse.dropWhile is_space_char).reverse)

/-- Splitting of a character list on a one-character delimiter, keeping
empty parts, modelling the Python str.split(delimiter) used with the one
character delimiter of the rules-document format. -/
def split_chars (delim : Char) : List Char → List (List Char)
  | [] => [[]]
  | c :: rest =>
      let r := split_chars delim rest
      if c = delim then [] :: r
      else
        match r with
        | [] => [[c]]
        | g :: gs => (c :: g) :: gs

/-- Function split_on from utils/regex_utils.py: empty text gives the
empty list, otherwise the text splits on the delimiter and every part is
stripped, empty parts dropped. -/
def split_on (text : String) (delim : Char) : List String :=
  if text = "" then []
  else
    ((split_chars delim text.data).map (fun cs => str_strip (String.mk cs))).filter
      (fun p => p ≠ "")

/-- Test that a character list begins with the given prefix list. -/
def begins_with : List Char → List Char → Bool
  | [], _ => true
  | _ :: _, [] => false
  | p :: ps, c :: cs => p = c && begins_with ps cs

/-- Python str.startswith modelled at the character-list level. -/
def str_starts_with (s pre : String) : Bool :=
  begins_with pre.data s.data

/-- Python single-character str.replace modelled at the character-list
level (the source only replaces the one-character strings dash and slash
by underscore). -/
def str_replace_char (s : String) (old new : Char) : String :=
  String.mk (s.data.map (fun c => if c = old then new else c))

/-- Python dict assignment d[k] = v on an ordered association list: an
existing key keeps its position and gets the new value, a new key is
appended at the end. -/
def dict_update {α : Type} : List (String × α) → String → α → List (String × α)
  | [], k, v => [(k, v)]
  | (k2, v2) :: rest, k, v =>
      if k2 = k then (k2, v) :: rest else (k2, v2) :: dict_update rest k v

/-- ValidatorClass models a registered Validator subclass: its registered
rail_alias, its two internal checks, and whether its constructor raises
(Validator.__init__ raises ValueError when require_rc is left true and no
wallrc file is present; the kwargs of a concrete use are baked into the
fields of the class value). -/
structure ValidatorClass where
  rail_alias : String
  validate_impl : Value → Metadata → Except String ValidationResult
  async_validate_impl : Value → Metadata → Except String ValidationResult
  construct_raises : Option PyError

/-- Construction of a validator instance from its class and the on_fail
argument, per Validator.__init__ of validator_base.py lines 79-120. -/
def ValidatorClass.construct (c : ValidatorClass) (arg : OnFailArg) :
    Except PyError Validator :=
  match c.construct_raises with
  | some e => Except.error e
  | Option.none =>
      let r := resolve_on_fail arg
      Except.ok
        { rail_alias := c.rail_alias,
          on_fail_descriptor := r.1,
          on_fail_method := r.2,
          validate_impl := c.validate_impl,
          async_validate_impl := c.async_validate_impl }

mutual
/-- XmlElement models a parsed lxml element of the rules document: tag,
attribute list in document order, and child elements. The XML text parsing
itself is done by the external lxml library and is not embedded; the
embedding starts from the parsed tree. Children form the companion type
XmlForest, an inlined list of elements (the encoding keeps the recursion
over the tree structural). -/
inductive XmlElement where
  | mk (tag : String) (attrib : List (String × String)) (children : XmlForest)
/-- XmlForest is the list of child elements of an XmlElement, inlined. -/
inductive XmlForest where
  | nil
  | cons (head : XmlElement) (tail : XmlForest)
end

/-- Forest built from a list of elements, for writing concrete documents. -/
def forest_of_list : List XmlElement → XmlForest
  | [] => XmlForest.nil
  | e :: rest => XmlForest.cons e (forest_of_list rest)

/-- Emptiness test of a forest, modelling the Python truthiness of the
getchildren list. -/
def XmlForest.is_empty : XmlForest → Bool
  | XmlForest.nil => true
  | XmlForest.cons _ _ => false

/-- Tag accessor of XmlElement. -/
def XmlElement.tag : XmlElement → String
  | XmlElement.mk t _ _ => t

/-- Attribute-list accessor of XmlElement. -/
def XmlElement.attrib : XmlElement → List (String × String)
  | XmlElement.mk _ a _ => a

/-- Children accessor of XmlElement. -/
def XmlElement.children : XmlElement → XmlForest
  | XmlElement.mk _ _ cs => cs

mutual
/-- Search for the first element with the given tag in an element subtree
in document order, the element itself included. -/
def element_find (tag : String) : XmlElement → Option XmlElement
  | XmlElement.mk t a cs =>
      if t = tag then some (XmlElement.mk t a cs)
      else forest_find tag cs

/-- Search for the first element with the given tag across a forest in
document order; applied to the children of a root this models the lxml
call root.find with a descendant path (the root itself is not a
candidate, descendants are visited depth first). -/
def forest_find (tag : String) : XmlForest → Option XmlElement
  | XmlForest.nil => Option.none
  | XmlForest.cons c rest =>
      match element_find tag c with
      | some r => some r
      | Option.none => forest_find tag rest
end

/-- JsonVal models the JSON-schema-shaped Python dicts produced by the
schema compiler: string leaves and ordered string-keyed objects. -/
inductive JsonVal where
  | s (v : String)
  | obj (fields : List (String × JsonVal))

/-- Function parse_on_fail_handlers from schema/rail_schema.py lines
16-35: every attribute whose key starts with on-fail- contributes the
remainder of the key mapped to the parsed OnFailAction; an unparsable
action value is logged and skipped. The xml_to_string of the source is the
identity on attribute keys, which are plain strings. -/
def parse_on_fail_handlers (attrib : List (String × String)) :
    List (String × OnFailAction) :=
  attrib.foldl
    (fun handlers kv =>
      if str_starts_with kv.1 ("on-fail-") then
        match OnFailAction.from_value kv.2 with
        | some a => dict_update handlers (String.mk (kv.1.data.drop 8)) a
        | Option.none => handlers
      else handlers)
    []

/-- Function get_validators_from_element from schema/rail_schema.py lines
38-61: the validators attribute splits on the semicolon; each id is looked
up (stripped) in the process-wide registry, here passed explicitly; an
unknown id is skipped; the on-fail action for a resolved class comes from
the on-fail handlers under the class rail_alias with slashes replaced by
underscores, defaulting to NOOP. -/
def get_validators_from_element (registry : String → Option ValidatorClass)
    (element : XmlElement) : List (ValidatorClass × OnFailAction) :=
  let validators_string := (List.lookup ("validators") element.attrib).getD ("")
  let validator_specs := split_on validators_string ';'
  let on_fail_handlers := parse_on_fail_handlers element.attrib
  validator_specs.foldl
    (fun acc v_spec =>
      match registry (str_strip v_spec) with
      | Option.none => acc
      | some validator_cls =>
          let on_fail :=
            (List.lookup (str_replace_char validator_cls.rail_alias '/' '_')
              on_fail_handlers).getD OnFailAction.noop
          acc ++ [(validator_cls, on_fail)])
    []

/-- ValidatorReference from classes/validation/validator_reference.py. The
source field named on is called on_path here because on is notation in
Lean. -/
structure ValidatorReference where
  id : String
  on_path : String
  on_fail : OnFailAction
  kwargs : Metadata

/-- ProcessedSchema from classes/schema/processed_schema.py: the compiled
output schema, the declarative validator references in binding order, and
the json-path-keyed map of validator instances. -/
structure ProcessedSchema where
  schema : JsonVal
  validators : List ValidatorReference
  validator_map : List (String × List Validator)

/-- Appending a validator under a json path in a validator map, modelling
the source pattern that creates the key with an empty list when missing
and appends the instance. -/
def vmap_append (m : List (String × List Validator)) (k : String) (v : Validator) :
    List (String × List Validator) :=
  match m with
  | [] => [(k, [v])]
  | (k2, vs) :: rest =>
      if k2 = k then (k2, vs ++ [v]) :: rest else (k2, vs) :: vmap_append rest k v

/-- Method ProcessedSchema.add_validator from
classes/schema/processed_schema.py lines 19-36: builds a ValidatorReference
whose id is the rail_alias (falling back to the class name, abstracted here
as the fixed string Validator, when the alias is empty), whose on_fail is
the given action or NOOP when none is given, and appends the instance under
the json path. Note that the only call site in the repository, in
rail_string_to_schema, does not reach this body: it passes the json path
under the keyword name on, which this signature does not declare. -/
def ProcessedSchema.add_validator (ps : ProcessedSchema) (validator : Validator)
    (json_path : String) (on_fail : Option OnFailAction) (kwargs : Metadata) :
    ProcessedSchema :=
  let ref : ValidatorReference :=
    { id := if validator.rail_alias ≠ "" then validator.rail_alias else ("Validator"),
      on_path := json_path,
      on_fail := on_fail.getD OnFailAction.noop,
      kwargs := kwargs }
  { schema := ps.schema,
    validators := ps.validators ++ [ref],
    validator_map := vmap_append ps.validator_map json_path validator }


/-- Lookup of the name attribute of a child, with the tag as fallback,
modelling child.get with default child.tag in the schema walk. -/
def child_name (e : XmlElement) : String :=
  (List.lookup ("name") e.attrib).getD e.tag

/-- Fold of the attribute handling of _element_to_schema_dict: every
attribute other than validators and on-fail-... is stored under its key
with dashes replaced by underscores. -/
def attrib_fold (attrib : List (String × String)) (d : List (String × JsonVal)) :
    List (String × JsonVal) :=
  attrib.foldl
    (fun acc kv =>
      if kv.1 ≠ ("validators") && !(str_starts_with kv.1 ("on-fail-")) then
        dict_update acc (str_replace_char kv.1 '-' '_') (JsonVal.s kv.2)
      else acc)
    d

mutual
/-- Function _element_to_schema_dict from schema/rail_schema.py lines
118-142: the tag becomes the type entry, filtered attributes follow, and
for a non-leaf node an object or dict tag nests child schemas under
properties keyed by the child name while an array or list tag nests the
schema of the first child under items. -/
def element_to_schema_dict : XmlElement → JsonVal
  | XmlElement.mk tag attrib children =>
    let d1 := attrib_fold attrib [(("type" : String), JsonVal.s tag)]
    if children.is_empty then JsonVal.obj d1
    else if tag = ("object") || tag = ("dict") then
      JsonVal.obj (dict_update d1 ("properties") (JsonVal.obj (children_properties children [])))
    else if tag = ("array") || tag = ("list") then
      match children with
      | XmlForest.nil => JsonVal.obj d1
      | XmlForest.cons c _ => JsonVal.obj (dict_update d1 ("items") (element_to_schema_dict c))
    else JsonVal.obj d1

/-- Accumulation of the properties dict in the object branch of
_element_to_schema_dict, one Python dict assignment per child. -/
def children_properties : XmlForest → List (String × JsonVal) →
    List (String × JsonVal)
  | XmlForest.nil, acc => acc
  | XmlForest.cons c rest, acc =>
      children_properties rest (dict_update acc (child_name c) (element_to_schema_dict c))
end

/-- Function rail_string_to_schema from schema/rail_schema.py lines
83-115, starting from the parsed root element (the XML text parse itself,
and its XMLSyntaxError branch, happen in the external lxml library). With
no output element the fresh empty ProcessedSchema is returned. Otherwise
the schema dict is built from the output element and the validators
declared on the output element are collected; for the first collected
validator the source evaluates validator_cls() (which raises when the
class constructor raises) and then calls
processed_schema.add_validator(instance, on=..., on_fail=...). That call
never enters the method body: add_validator declares the positional
parameter json_path and no parameter named on, so the keyword on lands in
kwargs and Python raises a TypeError for the missing json_path argument.
Only XMLSyntaxError is caught in the source, so the TypeError (or the
constructor error) propagates. -/
def rail_root_to_schema (registry : String → Option ValidatorClass)
    (root : XmlElement) : Except PyError ProcessedSchema :=
  match forest_find ("output") root.children with
  | Option.none =>
      Except.ok { schema := JsonVal.obj [], validators := [], validator_map := [] }
  | some output_element =>
      let ps : ProcessedSchema :=
        { schema := element_to_schema_dict output_element,
          validators := [],
          validator_map := [] }
      match get_validators_from_element registry output_element with
      | [] => Except.ok ps
      | (validator_cls, _on_fail) :: _ =>
          match validator_cls.construct OnFailArg.none with
          | Except.error e => Except.error e
          | Except.ok _ =>
              Except.error
                (PyError.typeError
                  ("add_validator() missing 1 required positional argument: json_path"))

/-- ValidationOutcome from classes/validation_outcome.py; the source
stores the validation results inside the metadata dict under the key
validation_results, modelled as a dedicated field. -/
structure ValidationOutcome where
  validated_output : Option Value
  raw_output : String
  validation_passed : Bool
  error_spans : List ErrorSpan
  validation_results : List ValidationResult
deriving DecidableEq

/-- WallGuard state from guard.py: the validator list, the configured
num_reasks, the json-path-keyed validator map used by validate, and the
compiled schema artifacts set by the for_rail constructors. -/
structure WallGuard where
  validators : List Validator
  num_reasks : Nat
  validator_map : List (String × List Validator)
  processed_schema : Option ProcessedSchema
  output_schema : Option JsonVal

/-- Fresh guard as produced by WallGuard.__init__ with a num_reasks
argument and no validators. -/
def WallGuard.init (num_reasks : Nat) : WallGuard :=
  { validators := [],
    num_reasks := num_reasks,
    validator_map := [],
    processed_schema := Option.none,
    output_schema := Option.none }

/-- Classmethod WallGuard.for_rail_string from guard.py lines 196-216,
starting from the parsed rules document: the processed schema is compiled
and stored together with its schema dict, while the validators list and
the validator_map of the guard are left untouched (empty on a fresh
guard). -/
def for_rail_string (registry : String → Option ValidatorClass)
    (root : XmlElement) (num_reasks : Nat := 0) : Except PyError WallGuard :=
  match rail_root_to_schema registry root with
  | Except.error e => Except.error e
  | Except.ok ps =>
      Except.ok
        { validators := [],
          num_reasks := num_reasks,
          validator_map := [],
          processed_schema := some ps,
          output_schema := some ps.schema }

/-- Specification accepted by WallGuard.use: a Validator instance, a
Validator class, or a tuple of class and kwargs with an optional
OnFailAction (the kwargs of a concrete tuple are baked into the class
value, see ValidatorClass). -/
inductive UseValidatorSpec where
  | inst (v : Validator)
  | cls (c : ValidatorClass)
  | tuple2 (c : ValidatorClass)
  | tuple3 (c : ValidatorClass) (on_fail : OnFailAction)

/-- Method WallGuard.use from guard.py lines 97-129: a class is
instantiated with no arguments (on_fail None); a tuple is instantiated
with its declared on_fail, defaulting to OnFailAction.EXCEPTION when the
tuple has no third component; the instance is appended to the validators
list and to the validator map under the target path. -/
def WallGuard.use (g : WallGuard) (spec : UseValidatorSpec)
    (target : String := "output") : Except PyError WallGuard :=
  let instE : Except PyError Validator :=
    match spec with
    | UseValidatorSpec.inst v => Except.ok v
    | UseValidatorSpec.cls c => c.construct OnFailArg.none
    | UseValidatorSpec.tuple2 c => c.construct (OnFailArg.action OnFailAction.exception)
    | UseValidatorSpec.tuple3 c a => c.construct (OnFailArg.action a)
  match instE with
  | Except.error e => Except.error e
  | Except.ok vi =>
      Except.ok
        { g with
          validators := g.validators ++ [vi],
          validator_map := vmap_append g.validator_map target vi }

/-- Method WallGuard.validate from guard.py lines 218-277: the output
validators come from the validator map of the guard under the key output;
each runs through Validator.validate with the metadata taken from the
call; error spans of failing results accumulate in order; the outcome
passes only when every result passes, and the validated output is the
input exactly on pass. No on-fail handler runs here and nothing is
raised: the outcome is always returned. -/
def WallGuard.validate (g : WallGuard) (llm_output : String)
    (metadata : Metadata := []) : ValidationOutcome :=
  let output_validators := (List.lookup ("output") g.validator_map).getD []
  let results := output_validators.map
    (fun v => v.validate (Value.str llm_output) (some metadata))
  let spans := results.foldl
    (fun acc r =>
      match r with
      | ValidationResult.fail f => acc ++ f.error_spans
      | ValidationResult.pass _ => acc)
    []
  let passed := results.all ValidationResult.is_pass
  { validated_output := if passed then some (Value.str llm_output) else Option.none,
    raw_output := llm_output,
    validation_passed := passed,
    error_spans := spans,
    validation_results := results }

/-- Trace of one Runner.run invocation, instrumented with the number of
model-caller invocations and the list of backoff sleep durations so that
the observable quantities of the spec can be stated. -/
structure RunnerTrace where
  output : String
  api_calls : Nat
  sleeps : List Nat
deriving DecidableEq

/-- Method Runner.run from run/runner.py lines 37-58: the model caller is
invoked exactly once with the prompt and its string output is returned;
there is no validation, no retry loop and no sleep in the body. The model
caller is modelled as a function of the number of completed prior calls
(for stateful stubs) and the prompt; run invokes it at count zero. -/
def Runner.run (api : Nat → String → String) (prompt : String) : RunnerTrace :=
  { output := api 0 prompt, api_calls := 1, sleeps := [] }

/-- Result of WallGuard.__call__: the returned tuple of raw output,
validated output and outcome, together with the instrumentation of the
runner trace. -/
structure GuardCallResult where
  raw_output : String
  validated_output : Option Value
  outcome : ValidationOutcome
  api_calls : Nat
  sleeps : List Nat
deriving DecidableEq

/-- Method WallGuard.__call__ from guard.py lines 279-314 in the branch
with an llm_api: a Runner is built, run produces one output, and the guard
validates that output once; the outcome is returned. num_reasks is passed
to the Runner but Runner.run never reads it. -/
def WallGuard.call (g : WallGuard) (api : Nat → String → String)
    (prompt : String) : GuardCallResult :=
  let t := Runner.run api prompt
  let outcome := g.validate t.output []
  { raw_output := outcome.raw_output,
    validated_output := outcome.validated_output,
    outcome := outcome,
    api_calls := t.api_calls,
    sleeps := t.sleeps }

/-- ReaskSetup models the dict returned by get_reask_setup. The Python
float 2.0 is exactly the number two, modelled as a natural number. -/
structure ReaskSetup where
  max_reasks : Nat
  backoff_factor : Nat
deriving DecidableEq

/-- Function get_reask_setup from actions/reask.py lines 33-38: a constant
configuration dict; nothing else in the repository consumes it. -/
def get_reask_setup : ReaskSetup :=
  { max_reasks := 3, backoff_factor := 2 }

/-- Internal check of the LengthValidator of
src/examples/test_basic_example.py: a non-string value fails with a type
message; a too short or too long string fails with a bounds message;
otherwise the value passes. -/
def length_validator_validate (min_length max_length : Nat) :
    Value → Metadata → Except String ValidationResult :=
  fun value md =>
    match value with
    | Value.str s =>
        if s.length < min_length then
          Except.ok (ValidationResult.fail
            { error_message := ("Value too short. Minimum length: ") ++ toString min_length
                ++ (", got: ") ++ toString s.length,
              fix_value := Option.none, error_spans := [], metadata := md })
        else if s.length > max_length then
          Except.ok (ValidationResult.fail
            { error_message := ("Value too long. Maximum length: ") ++ toString max_length
                ++ (", got: ") ++ toString s.length,
              fix_value := Option.none, error_spans := [], metadata := md })
        else Except.ok (ValidationResult.pass md)
    | v =>
        Except.ok (ValidationResult.fail
          { error_message := ("Value must be a string, got ") ++ v.type_name,
            fix_value := Option.none, error_spans := [], metadata := md })

/-- Default async internal check inherited from the Validator base class
(the LengthValidator of the examples overrides only the sync check): it
passes every value. -/
def base_async_validate : Value → Metadata → Except String ValidationResult :=
  fun _ md => Except.ok (ValidationResult.pass md)

/-- LengthValidator class of src/examples/test_basic_example.py with its
min and max kwargs baked in, registered constructible (the examples pass
require_rc false). The registered alias in the library examples is
test_length; the rail example references the id length, so the alias is a
parameter here. -/
def length_validator_cls (alias_ : String) (min_length max_length : Nat) :
    ValidatorClass :=
  { rail_alias := alias_,
    validate_impl := length_validator_validate min_length max_length,
    async_validate_impl := base_async_validate,
    construct_raises := Option.none }


/-- Default sync internal check inherited from the Validator base class:
it passes every value (validator_base.py lines 166-169). -/
def base_sync_validate : Value → Metadata → Except String ValidationResult :=
  fun _ md => Except.ok (ValidationResult.pass md)

/-- Internal check of the AlwaysFailValidator of
src/examples/tests/test_onfail_actions.py: every value fails with the
fixed message. -/
def always_fail_validate : Value → Metadata → Except String ValidationResult :=
  fun _ md =>
    Except.ok (ValidationResult.fail
      { error_message := ("Always fails for testing"),
        fix_value := Option.none, error_spans := [], metadata := md })

/-- AlwaysFailValidator instance bound to a given on-fail action, as built
by the use calls of test_onfail_actions.py. -/
def always_fail_validator (a : OnFailAction) : Validator :=
  { rail_alias := ("test_failer"),
    on_fail_descriptor := a,
    on_fail_method := Option.none,
    validate_impl := always_fail_validate,
    async_validate_impl := base_async_validate }

/-- FailResult produced by the AlwaysFailValidator when run with empty
metadata. -/
def test_failer_result : FailResult :=
  { error_message := ("Always fails for testing"),
    fix_value := Option.none, error_spans := [], metadata := [] }

/-- LengthValidator instance with min 5 and max 20 bound to EXCEPTION, as
built by the use call of test_basic_example.py. -/
def length_validator_5_20 : Validator :=
  { rail_alias := ("test_length"),
    on_fail_descriptor := OnFailAction.exception,
    on_fail_method := Option.none,
    validate_impl := length_validator_validate 5 20,
    async_validate_impl := base_async_validate }

/-- LengthValidator instance with min 5 and max 20 bound to REASK, the
validator of scenario D of the spec. -/
def length_validator_reask : Validator :=
  { rail_alias := ("test_length"),
    on_fail_descriptor := OnFailAction.reask,
    on_fail_method := Option.none,
    validate_impl := length_validator_validate 5 20,
    async_validate_impl := base_async_validate }

/-- Validator whose internal checks raise an exception with message boom,
for exercising the exception-conversion path of Validator.validate. -/
def err_validator : Validator :=
  { rail_alias := ("boom_validator"),
    on_fail_descriptor := OnFailAction.noop,
    on_fail_method := Option.none,
    validate_impl := fun _ _ => Except.error ("boom"),
    async_validate_impl := fun _ _ => Except.error ("boom") }

/-- Validator whose internal check returns FailResult(metadata=metadata),
leaving every other field at its dataclass default; in particular
error_message defaults to the empty string in the source dataclass. -/
def empty_message_validator : Validator :=
  { rail_alias := ("empty_message"),
    on_fail_descriptor := OnFailAction.noop,
    on_fail_method := Option.none,
    validate_impl := fun _ md =>
      Except.ok (ValidationResult.fail
        { error_message := (""), fix_value := Option.none,
          error_spans := [], metadata := md }),
    async_validate_impl := base_async_validate }

/-- FailResult with all fields at their dataclass defaults and empty
metadata, as produced by the empty_message_validator. -/
def c8_fail_empty : FailResult :=
  { error_message := (""), fix_value := Option.none,
    error_spans := [], metadata := [] }

/-- Parsed scenario A rules document of the spec: one output tree whose
single string field declares the length validator with min 5, max 20 and
on-fail exception. -/
def scenario_a_root : XmlElement :=
  XmlElement.mk ("rail") [(("version"), ("0.1"))]
    (forest_of_list
      [XmlElement.mk ("output") []
        (forest_of_list
          [XmlElement.mk ("string")
            [(("name"), ("text")), (("validators"), ("length")),
             (("min"), ("5")), (("max"), ("20")),
             (("on-fail-length"), ("exception"))] XmlForest.nil])])

/-- Registry holding the length validator under the id length, with min 5
and max 20 baked in. -/
def scenario_a_registry : String → Option ValidatorClass :=
  fun s =>
    if s = ("length") then some (length_validator_cls ("length") 5 20) else Option.none

/-- Parsed rules document whose output element itself declares the length
validator, the shape on which rail_string_to_schema reaches its
add_validator call. -/
def c6_root : XmlElement :=
  XmlElement.mk ("rail") []
    (forest_of_list
      [XmlElement.mk ("output")
        [(("validators"), ("length")), (("on-fail-length"), ("exception"))]
        XmlForest.nil])

/-- Guard of scenario D of the spec: num_reasks 3 and the length validator
bound to REASK on the output, the state produced by
WallGuard(num_reasks=3).use((LengthValidator, kwargs, REASK)). -/
def scenario_d_guard : WallGuard :=
  { validators := [length_validator_reask],
    num_reasks := 3,
    validator_map := [(("output" : String), [length_validator_reask])],
    processed_schema := Option.none,
    output_schema := Option.none }

/-- Model-caller stub of scenario D: output failing the length validator
on the first two calls and passing from the third call on. -/
def scenario_d_stub : Nat → String → String :=
  fun k _ => if k < 2 then ("Hi") else ("Hello World")

/-- Model-caller stub whose output always fails the length validator. -/
def always_short_stub : Nat → String → String :=
  fun _ _ => ("Hi")

/-- Claim C1 (amended): for the guard built from the scenario A rules
document, validating Hello World returns validation_passed true with
validated_output Hello World, and validating Hi ALSO returns an outcome
normally, with validation_passed true and validated_output Hi, because
for_rail_string leaves the validator map of the guard empty (field-level
validator declarations are never collected and validate consults only the
validator map of the guard, never raising). -/
theorem c1_rail_guard_validate :
    (for_rail_string scenario_a_registry scenario_a_root).map
      (fun g =>
        ((g.validate ("Hello World")).validation_passed,
         (g.validate ("Hello World")).validated_output,
         (g.validate ("Hi")).validation_passed,
         (g.validate ("Hi")).validated_output,
         g.validator_map)) =
    Except.ok (true, some (Value.str ("Hello World")), true, some (Value.str ("Hi")), []) :=
  rfl

/-- Claim C1 counterexample: validating Hi on the guard built from the
scenario A rules document returns an outcome normally (with
validation_passed true), instead of raising or propagating an abort
error as the claim states. -/
theorem c1_counterexample :
    (for_rail_string scenario_a_registry scenario_a_root).map
      (fun g => ((g.validate ("Hi")).validation_passed,
                 (g.validate ("Hi")).validated_output)) =
    Except.ok (true, some (Value.str ("Hi"))) :=
  rfl

/-- Claim C2 (amended): for every Fail result whose bound on-fail action
is Reask, on_fail_handler returns the unchanged input value through its
default branch; no RequestRetry resolution exists in the code. -/
theorem c2_reask_on_fail_handler (v : Validator) (value : Value) (f : FailResult)
    (h : v.on_fail_descriptor = OnFailAction.reask) :
    v.on_fail_handler value f = Except.ok value := by
  unfold Validator.on_fail_handler
  rw [h]

/-- Claim C2 witness: the REASK-bound AlwaysFailValidator resolves an
integer input to itself. -/
theorem c2_witness :
    (always_fail_validator OnFailAction.reask).on_fail_handler (Value.int 7)
      test_failer_result = Except.ok (Value.int 7) :=
  c2_reask_on_fail_handler (always_fail_validator OnFailAction.reask) (Value.int 7)
    test_failer_result rfl

/-- Claim C2 counterexample: for the REASK-bound AlwaysFailValidator and
its Fail result, the on-fail resolution is exactly the unchanged input
value, which the claim states never happens. -/
theorem c2_counterexample :
    (always_fail_validator OnFailAction.reask).on_fail_handler (Value.str ("test"))
      test_failer_result = Except.ok (Value.str ("test")) :=
  rfl

/-- Claim C3 (amended): the generate-validate path invokes the model
caller exactly once and performs no backoff sleep, for every guard, every
model caller and every prompt; the outcome is the single validation of the
first output (num_reasks is never read by the runner). -/
theorem c3_single_invocation (g : WallGuard) (api : Nat → String → String)
    (prompt : String) :
    (g.call api prompt).api_calls = 1 ∧ (g.call api prompt).sleeps = [] ∧
      (g.call api prompt).outcome = g.validate (api 0 prompt) [] :=
  ⟨rfl, rfl, rfl⟩

/-- Claim C3 counterexample: with the scenario D guard (REASK, num_reasks
3) and the stub failing on attempts one and two and passing on attempt
three, the run terminates after exactly one model-caller invocation with
zero backoff sleeps and validation_passed false, not after three
invocations and two sleeps with validation_passed true. -/
theorem c3_counterexample :
    (scenario_d_guard.call scenario_d_stub ("write")).api_calls = 1 ∧
    (scenario_d_guard.call scenario_d_stub ("write")).sleeps = [] ∧
    (scenario_d_guard.call scenario_d_stub ("write")).outcome.validation_passed = false := by
  refine ⟨rfl, rfl, ?_⟩
  decide

/-- Claim C4 (amended): the sequential and the concurrent execution
strategies produce element-wise equal result lists in binding order
whenever every listed validator computes the same result through its sync
and its async internal check on the given input; the strategies differ
exactly in which internal check they run. -/
theorem c4_sequential_eq_async (value : Value) (validators : List Validator)
    (metadata : Option Metadata)
    (h : ∀ v ∈ validators,
      v.validate_impl value (metadata.getD []) =
        v.async_validate_impl value (metadata.getD [])) :
    SequentialValidatorService.validate value validators metadata =
      AsyncValidatorService.validate value validators metadata := by
  unfold SequentialValidatorService.validate AsyncValidatorService.validate
  induction validators with
  | nil => rfl
  | cons v rest ih =>
      have hv := h v (List.mem_cons_self v rest)
      have hrest : ∀ w ∈ rest,
          w.validate_impl value (metadata.getD []) =
            w.async_validate_impl value (metadata.getD []) :=
        fun w hw => h w (List.mem_cons_of_mem v hw)
      have hhead : v.validate value (some (metadata.getD [])) =
          v.async_validate value (some (metadata.getD [])) := by
        simp only [Validator.validate, Validator.async_validate, Option.getD_some]
        rw [hv]
      simp only [List.map_cons, hhead, ih hrest]

/-- Claim C4 witness: on the passing input Hello World the LengthValidator
computes the same result through both checks, and the two strategies
agree. -/
theorem c4_witness :
    SequentialValidatorService.validate (Value.str ("Hello World"))
        [length_validator_5_20] Option.none =
      AsyncValidatorService.validate (Value.str ("Hello World"))
        [length_validator_5_20] Option.none :=
  c4_sequential_eq_async (Value.str ("Hello World")) [length_validator_5_20] Option.none
    (by
      intro v hv
      rw [List.mem_singleton] at hv
      subst hv
      rfl)

/-- Claim C4 counterexample: the LengthValidator of the examples overrides
only the sync internal check, so on the too-short input Hi the sequential
strategy reports a failure while the concurrent strategy, which runs the
inherited always-passing async check, reports a pass: the two result lists
differ element-wise. -/
theorem c4_counterexample :
    (SequentialValidatorService.validate (Value.str ("Hi"))
        [length_validator_5_20] Option.none).map ValidationResult.is_pass ≠
      (AsyncValidatorService.validate (Value.str ("Hi"))
        [length_validator_5_20] Option.none).map ValidationResult.is_pass := by
  decide

/-- Claim C5 (amended): for every Fail result whose bound on-fail action
is Fix and whose fix_value is absent, on_fail_handler resolves to the
missing value None (exactly as Filter does), continuing silently rather
than aborting. -/
theorem c5_fix_without_fix_value (v : Validator) (value : Value) (f : FailResult)
    (h1 : v.on_fail_descriptor = OnFailAction.fix) (h2 : f.fix_value = Option.none) :
    v.on_fail_handler value f = Except.ok Value.none := by
  unfold Validator.on_fail_handler
  rw [h1, h2]
  rfl

/-- Claim C5 witness: the FIX-bound AlwaysFailValidator, whose Fail result
has no fix_value, resolves an integer input to None. -/
theorem c5_witness :
    (always_fail_validator OnFailAction.fix).on_fail_handler (Value.int 3)
      test_failer_result = Except.ok Value.none :=
  c5_fix_without_fix_value (always_fail_validator OnFailAction.fix) (Value.int 3)
    test_failer_result rfl rfl

/-- Claim C5 counterexample: with action Fix and an absent fix_value the
resolution is a normal continuation carrying the missing value None, not
the Abort the claim requires. -/
theorem c5_counterexample :
    (always_fail_validator OnFailAction.fix).on_fail_handler (Value.str ("test"))
      test_failer_result = Except.ok Value.none :=
  rfl

/-- Claim C6: compiling a rules document whose output element declares the
registered validator id length raises a TypeError instead of succeeding:
the call site passes the json path under the keyword name on, which
add_validator does not declare, so json_path is missing; only
XMLSyntaxError is caught. -/
theorem c6_rail_compile_type_error :
    rail_root_to_schema scenario_a_registry c6_root =
      Except.error (PyError.typeError
        ("add_validator() missing 1 required positional argument: json_path")) :=
  rfl

/-- Claim C7 (amended): the code performs no backoff sleep at all: the
sleep sequence of every run is empty (hence trivially monotone), and the
only backoff datum in the repository is the constant backoff_factor 2.0
returned by get_reask_setup, which nothing consumes. -/
theorem c7_no_backoff_sleeps (g : WallGuard) (api : Nat → String → String)
    (prompt : String) :
    (g.call api prompt).sleeps = [] ∧
      get_reask_setup.backoff_factor = 2 ∧ get_reask_setup.max_reasks = 3 :=
  ⟨rfl, rfl, rfl⟩

/-- Claim C7 counterexample: a run that by the claim should exhibit
exponential backoff sleeps (REASK validator that fails, num_reasks 3)
performs zero sleeps and never re-invokes the generator, so no delay of
the form base times two to the k exists. -/
theorem c7_counterexample :
    (scenario_d_guard.call always_short_stub ("write")).sleeps.length = 0 ∧
      (scenario_d_guard.call always_short_stub ("write")).api_calls = 1 :=
  ⟨rfl, rfl⟩

/-- Claim C8 (amended): every Fail produced by running a validator carries
exactly the error message supplied by the internal check: either the check
returned the Fail itself (whose message may be empty, the dataclass
default), or the check raised and the Fail carries the exception text with
no fix value and no spans. Non-emptiness of error_message is not
enforced. -/
theorem c8_fail_message_characterization (v : Validator) (value : Value)
    (metadata : Option Metadata) (f : FailResult)
    (h : v.validate value metadata = ValidationResult.fail f) :
    v.validate_impl value (metadata.getD []) = Except.ok (ValidationResult.fail f) ∨
      (v.validate_impl value (metadata.getD []) = Except.error f.error_message ∧
        f.fix_value = Option.none ∧ f.error_spans = [] ∧
        f.metadata = metadata.getD []) := by
  simp only [Validator.validate] at h
  cases himpl : v.validate_impl value (metadata.getD []) with
  | ok r =>
      left
      rw [himpl] at h
      exact congrArg Except.ok h
  | error e =>
      right
      rw [himpl] at h
      cases h
      exact ⟨rfl, rfl, rfl, rfl⟩

/-- Claim C8 witness: the characterization applied to the validator whose
check returns a default-constructed FailResult. -/
theorem c8_witness :
    empty_message_validator.validate_impl (Value.int 0)
        ((Option.none : Option Metadata).getD []) =
      Except.ok (ValidationResult.fail c8_fail_empty) ∨
      (empty_message_validator.validate_impl (Value.int 0)
          ((Option.none : Option Metadata).getD []) =
        Except.error c8_fail_empty.error_message ∧
        c8_fail_empty.fix_value = Option.none ∧ c8_fail_empty.error_spans = [] ∧
        c8_fail_empty.metadata = (Option.none : Option Metadata).getD []) :=
  c8_fail_message_characterization empty_message_validator (Value.int 0)
    Option.none c8_fail_empty rfl

/-- Claim C8 counterexample: running the validator whose check returns a
default-constructed FailResult produces a Fail whose error_message is the
empty string, refuting the claim that every Fail carries a non-empty
error_message. -/
theorem c8_counterexample :
    empty_message_validator.validate (Value.str ("x")) Option.none =
      ValidationResult.fail c8_fail_empty :=
  rfl

/-- Claim C9: Validator.validate and Validator.async_validate are total
(the embedding gives them total return types because the source wraps the
internal check in try/except over Exception) and convert an exception
raised inside the internal check into a Fail result carrying exactly the
exception text, with the call metadata and no fix value or spans. -/
theorem c9_validate_never_raises (v : Validator) (value : Value)
    (metadata : Option Metadata) (e : String) :
    (v.validate_impl value (metadata.getD []) = Except.error e →
      v.validate value metadata = ValidationResult.fail
        { error_message := e, fix_value := Option.none, error_spans := [],
          metadata := metadata.getD [] }) ∧
    (v.async_validate_impl value (metadata.getD []) = Except.error e →
      v.async_validate value metadata = ValidationResult.fail
        { error_message := e, fix_value := Option.none, error_spans := [],
          metadata := metadata.getD [] }) := by
  constructor <;> intro h
  · simp only [Validator.validate]
    rw [h]
  · simp only [Validator.async_validate]
    rw [h]

/-- Claim C9 witness: the validator whose check raises boom yields a Fail
result with error_message boom. -/
theorem c9_witness :
    err_validator.validate (Value.str ("x")) Option.none =
      ValidationResult.fail
        { error_message := ("boom"), fix_value := Option.none,
          error_spans := [], metadata := [] } :=
  (c9_validate_never_raises err_validator (Value.str ("x")) Option.none ("boom")).1 rfl

/-- Claim C10: a validator constructed with on_fail None resolves to the
EXCEPTION action; a validator added through use() with a tuple omitting
the action is likewise bound to EXCEPTION; and in the rules-document
compilation path a declared validator with no on-fail attribute defaults
to NOOP instead. -/
theorem c10_default_on_fail_actions
    (impl aimpl : Value → Metadata → Except String ValidationResult)
    (g : WallGuard) :
    ((ValidatorClass.mk ("length") impl aimpl Option.none).construct
        OnFailArg.none).map (fun v => v.on_fail_descriptor) =
      Except.ok OnFailAction.exception ∧
    (g.use (UseValidatorSpec.tuple2 (ValidatorClass.mk ("length") impl aimpl
        Option.none)) ("output")).map
      (fun g2 => g2.validators.getLast?.map (fun v => v.on_fail_descriptor)) =
      Except.ok (some OnFailAction.exception) ∧
    get_validators_from_element
        (fun s => if s = ("length") then
          some (ValidatorClass.mk ("length") impl aimpl Option.none)
          else Option.none)
        (XmlElement.mk ("output") [(("validators"), ("length"))] XmlForest.nil) =
      [(ValidatorClass.mk ("length") impl aimpl Option.none, OnFailAction.noop)] := by
  refine ⟨rfl, ?_, ?_⟩
  · simp [WallGuard.use, ValidatorClass.construct, resolve_on_fail, Except.map,
      List.getLast?_concat]
  · rfl

end Wall
